import Mathlib

/-!
Verification of `tensorflow_addons/layers/stochastic_depth.py`.

The layer combines a `shortcut` tensor and a `residual` tensor:
training mode returns `shortcut + b_l * residual` with `b_l` a scalar
Bernoulli draw, inference mode returns
`shortcut + survival_probability * residual`.

Tensors are modelled as a shape together with flat rational data;
the host framework's global random generator is modelled as a stream
of uniform draws in `[0, 1)` with an explicit position, so that
"consuming a draw" is observable as the position advancing.
-/

/-- A tensor: a shape and its flat numeric data (floats modelled as `ℚ`). -/
structure Tensor where
  shape : List Nat
  data : List ℚ
deriving DecidableEq, Repr

/-- Elementwise addition, as `tf` addition on equal-shaped tensors. -/
def tensorAdd (a b : Tensor) : Tensor :=
  ⟨a.shape, List.zipWith (· + ·) a.data b.data⟩

/-- Scalar multiplication `c * t`, elementwise. -/
def scalarMul (c : ℚ) (t : Tensor) : Tensor :=
  ⟨t.shape, t.data.map (fun y => c * y)⟩

/-- Two tensors of identical shape (the layer's documented precondition). -/
def Tensor.sameShape (a b : Tensor) : Prop :=
  a.shape = b.shape ∧ a.data.length = b.data.length

instance (a b : Tensor) : Decidable (a.sameShape b) := by
  unfold Tensor.sameShape; infer_instance

/-- The argument `x` of `call`: either a single tensor or a Python list
of tensors. -/
inductive TFInput where
  | tensor (t : Tensor)
  | list (ts : List Tensor)
deriving DecidableEq, Repr

/-- Python exceptions raised by the code under verification. -/
inductive PyError where
  | valueError (msg : String)
  | nameError (msg : String)
  | typeError (msg : String)
deriving DecidableEq, Repr

/-- The host framework's global random generator: a stream of uniform
draws in `[0, 1)` and the current position.  Consuming a draw reads
`draws pos` and advances `pos`. -/
structure RNG where
  pos : Nat
  draws : Nat → ℚ

/-- Read the next uniform draw and advance the generator. -/
def RNG.next (g : RNG) : ℚ × RNG :=
  (g.draws g.pos, ⟨g.pos + 1, g.draws⟩)

/-- Threshold a uniform draw `u ∈ [0, 1)` into a Bernoulli variable:
`1` with probability `p`, else `0`. -/
def bernoulliGate (p u : ℚ) : ℚ :=
  if u < p then 1 else 0

/-- Models `tf.keras.backend.random_binomial([], p)` (external to this
repository) by its contract: one scalar Bernoulli(`p`) draw, obtained by
thresholding one uniform draw from the global generator.  For a uniform
`u ∈ [0, 1)`, `u < p` has probability `p`; `p = 0` always yields `0` and
`p = 1` always yields `1`, matching the Bernoulli distribution at the
endpoints. -/
def random_binomial (p : ℚ) (g : RNG) : ℚ × RNG :=
  let ug := g.next
  (bernoulliGate p ug.1, ug.2)

/-- The layer instance: `__init__` stores `survival_probability` and
nothing else. -/
structure StochasticDepth where
  survival_probability : ℚ
deriving DecidableEq, Repr

/-- `StochasticDepth.__init__(survival_probability: float = 0.5)`:
stores the argument unchanged, with no range validation. -/
def StochasticDepth.init (survival_probability : ℚ := 1/2) : StochasticDepth :=
  ⟨survival_probability⟩

/-- A Python value passed to the typechecked constructor. -/
inductive PyValue where
  | float (q : ℚ)
  | int (n : Int)
  | str (s : String)
deriving DecidableEq, Repr

/-- Models the `@typechecked` constructor (typeguard is external to this
repository): per its documented PEP 484 numeric-tower handling, an `int`
is accepted where `float` is annotated; a non-numeric value raises
`TypeError`.  Accepted values are stored unchanged. -/
def StochasticDepth.initChecked (v : PyValue) : Except PyError StochasticDepth :=
  match v with
  | .float q => .ok ⟨q⟩
  | .int n => .ok ⟨(n : ℚ)⟩
  | .str _ => .error (.typeError "type of argument survival_probability must be float")

/-- `StochasticDepth.call(x, training)`.  The source's input validation is
written as malformed `assert cond: raise ValueError(...)` blocks; per the
evident intent they are embedded as `if not cond: raise ValueError(...)`:
a non-list raises "Input must be a list", a list whose length is not 2
raises "Input must have exactly two entries".  The Bernoulli draw `b_l`
is taken unconditionally, before `in_train_phase` selects between
`_call_train` (`shortcut + b_l * residual`) and `_call_test`
(`shortcut + survival_probability * residual`), so the generator advances
in both modes.  The result is the output tensor together with the
generator state after the call. -/
def StochasticDepth.call (layer : StochasticDepth) (x : TFInput) (training : Bool)
    (g : RNG) : Except PyError (Tensor × RNG) :=
  match x with
  | .tensor _ => .error (.valueError "Input must be a list")
  | .list [shortcut, residual] =>
      let br := random_binomial layer.survival_probability g
      if training then
        .ok (tensorAdd shortcut (scalarMul br.1 residual), br.2)
      else
        .ok (tensorAdd shortcut (scalarMul layer.survival_probability residual), br.2)
  | .list _ => .error (.valueError "Input must have exactly two entries")

/-- `StochasticDepth.compute_output_shape(input_shape)`.  The source body
first evaluates `isinstance(x, list)`, but no name `x` is in scope there
(the parameter is `input_shape`), so every call raises `NameError` before
reaching `return input_shape[0]`. -/
def StochasticDepth.compute_output_shape (_layer : StochasticDepth)
    (_input_shape : List (List Nat)) : Except PyError (List Nat) :=
  .error (.nameError "name x is not defined")

/-- A value in a Keras configuration mapping. -/
inductive ConfigVal where
  | str (s : String)
  | bool (b : Bool)
  | num (q : ℚ)
deriving DecidableEq, Repr

/-- Models the base `tf.keras.layers.Layer.get_config()` mapping
(external to this repository): the standard base keys, none of which is
`survival_probability`. -/
def baseLayerConfig : List (String × ConfigVal) :=
  [("name", .str "stochastic_depth"), ("trainable", .bool true),
   ("dtype", .str "float32")]

/-- `StochasticDepth.get_config()`: the base-layer configuration merged
with `{"survival_probability": p}`.  The Python `{**base_config, **config}`
merge lets the right operand win; since `baseLayerConfig` does not contain
the key, the merge is the concatenation. -/
def StochasticDepth.get_config (layer : StochasticDepth) : List (String × ConfigVal) :=
  baseLayerConfig ++ [("survival_probability", .num layer.survival_probability)]

/-- First value stored under key `k`, as Python dict lookup. -/
def lookupConfig (cfg : List (String × ConfigVal)) (k : String) : Option ConfigVal :=
  (cfg.find? (fun kv => kv.1 == k)).map (fun kv => kv.2)

/-- Models the host framework's `from_config` reconstruction: pass the
stored `survival_probability` back to the constructor. -/
def StochasticDepth.from_config (cfg : List (String × ConfigVal)) :
    Except PyError StochasticDepth :=
  match lookupConfig cfg "survival_probability" with
  | some (.num q) => .ok ⟨q⟩
  | _ => .error (.typeError "missing argument survival_probability")

/-- A concrete shortcut tensor used to instantiate the theorems. -/
def tensorA : Tensor := ⟨[2], [1, 2]⟩

/-- A concrete residual tensor of the same shape as `tensorA`. -/
def tensorB : Tensor := ⟨[2], [3, 5]⟩

/-- A concrete generator state: position `0`, every uniform draw `0`. -/
def gen0 : RNG := ⟨0, fun _ => 0⟩

/-! ### Helper lemmas -/

/-- Adding an all-zero scaled list changes nothing. -/
theorem zipWith_add_map_zero_mul (xs ys : List ℚ) (h : xs.length = ys.length) :
    List.zipWith (· + ·) xs (ys.map (fun y => 0 * y)) = xs := by
  induction xs generalizing ys with
  | nil => simp
  | cons a as ih =>
      cases ys with
      | nil => simp at h
      | cons b bs =>
          have ih2 := ih bs (by simpa using h)
          simpa using ih2

/-- Scaling by `1` is the identity. -/
theorem scalarMul_one (t : Tensor) : scalarMul 1 t = t := by
  cases t with
  | mk shape data => simp [scalarMul]

/-- Adding a zero-scaled residual returns the shortcut unchanged. -/
theorem tensorAdd_scalarMul_zero (s r : Tensor) (h : s.data.length = r.data.length) :
    tensorAdd s (scalarMul 0 r) = s := by
  cases s with
  | mk shape data =>
      simp only [tensorAdd, scalarMul, Tensor.mk.injEq, true_and]
      exact zipWith_add_map_zero_mul _ _ (by simpa using h)

/-! ### Claim theorems -/

/-- C1: for every pair of equal-shaped tensors and every stored survival
probability, an inference-mode call returns exactly
`shortcut + survival_probability * residual`; the output holds for every
generator state and does not mention its draws, so it is independent of any
random draw. -/
theorem inference_mode_deterministic (layer : StochasticDepth) (s r : Tensor)
    (g : RNG) :
    layer.call (.list [s, r]) false g =
      .ok (tensorAdd s (scalarMul layer.survival_probability r),
        ⟨g.pos + 1, g.draws⟩) := rfl

/-- C2: a training-mode call consumes exactly one draw from the generator and
returns `shortcut + b * residual` where `b` is the Bernoulli draw; `b` is
`0` or `1`, the output equals `shortcut` when `b = 0` and
`shortcut + residual` when `b = 1`. -/
theorem training_mode_bernoulli_gate (layer : StochasticDepth) (s r : Tensor)
    (g : RNG) (hlen : s.data.length = r.data.length) :
    layer.call (.list [s, r]) true g =
      .ok (tensorAdd s
        (scalarMul (bernoulliGate layer.survival_probability (g.draws g.pos)) r),
        ⟨g.pos + 1, g.draws⟩) ∧
    (bernoulliGate layer.survival_probability (g.draws g.pos) = 0 ∨
      bernoulliGate layer.survival_probability (g.draws g.pos) = 1) ∧
    (bernoulliGate layer.survival_probability (g.draws g.pos) = 0 →
      tensorAdd s
        (scalarMul (bernoulliGate layer.survival_probability (g.draws g.pos)) r) = s) ∧
    (bernoulliGate layer.survival_probability (g.draws g.pos) = 1 →
      tensorAdd s
        (scalarMul (bernoulliGate layer.survival_probability (g.draws g.pos)) r) =
        tensorAdd s r) := by
  refine ⟨rfl, ?_, ?_, ?_⟩
  · unfold bernoulliGate
    split
    · exact Or.inr rfl
    · exact Or.inl rfl
  · intro hb
    rw [hb]
    exact tensorAdd_scalarMul_zero s r hlen
  · intro hb
    rw [hb, scalarMul_one]

/-- C2 witness: the training-mode equation instantiated at concrete tensors
and the all-zero generator. -/
theorem training_mode_bernoulli_gate_witness :
    tensorA.data.length = tensorB.data.length ∧
    (StochasticDepth.init (1/2)).call (.list [tensorA, tensorB]) true gen0 =
      .ok (tensorAdd tensorA
        (scalarMul (bernoulliGate (1/2) (gen0.draws gen0.pos)) tensorB),
        ⟨gen0.pos + 1, gen0.draws⟩) :=
  ⟨rfl, (training_mode_bernoulli_gate (StochasticDepth.init (1/2))
    tensorA tensorB gen0 rfl).1⟩

/-- C3: a call raises an input-validation error exactly when the input is not
a two-element list of tensors; in particular a single tensor and a
three-element list raise, while a two-element pair never does. -/
theorem call_error_iff_not_pair (layer : StochasticDepth) (x : TFInput)
    (training : Bool) (g : RNG) :
    (∃ e, layer.call x training g = .error e) ↔
      (∀ s r, x ≠ TFInput.list [s, r]) := by
  cases x with
  | tensor t =>
      constructor
      · intro _ s r h
        exact TFInput.noConfusion h
      · intro _
        exact ⟨_, rfl⟩
  | list ts =>
      match ts with
      | [] =>
          constructor
          · intro _ s r h
            simp at h
          · intro _
            exact ⟨_, rfl⟩
      | [a] =>
          constructor
          · intro _ s r h
            simp at h
          · intro _
            exact ⟨_, rfl⟩
      | [a, b] =>
          constructor
          · rintro ⟨e, he⟩
            cases training <;> simp [StochasticDepth.call] at he
          · intro hall
            exact absurd rfl (hall a b)
      | a :: b :: c :: rest =>
          constructor
          · intro _ s r h
            simp at h
          · intro _
            exact ⟨_, rfl⟩

/-- C4 counterexample: an inference-mode call does not leave the generator
unchanged: starting from position 0, the state it returns has position 1, so
one draw was consumed in inference mode. -/
theorem inference_consumes_draw :
    (StochasticDepth.init (1/2)).call (.list [tensorA, tensorB]) false gen0 =
      .ok (tensorAdd tensorA (scalarMul (1/2) tensorB), ⟨1, gen0.draws⟩) ∧
    gen0.pos = 0 ∧ (1 : Nat) ≠ 0 :=
  ⟨rfl, rfl, by decide⟩

/-- C4 amended: every valid call consumes exactly one random draw — in
training and in inference mode alike, since the draw precedes the mode
branch — and has no other effect on the generator. -/
theorem call_consumes_one_draw_each_mode (layer : StochasticDepth)
    (s r : Tensor) (training : Bool) (g : RNG) :
    ∃ out : Tensor,
      layer.call (.list [s, r]) training g = .ok (out, ⟨g.pos + 1, g.draws⟩) := by
  cases training with
  | false => exact ⟨_, rfl⟩
  | true => exact ⟨_, rfl⟩

/-- C5: constructing with survival probability `p`, exporting the
configuration and reconstructing yields an instance with the same survival
probability; the exported mapping stores `p` under `"survival_probability"`
and retains every base-layer entry. -/
theorem config_round_trip (p : ℚ) :
    lookupConfig (StochasticDepth.init p).get_config "survival_probability" =
      some (.num p) ∧
    StochasticDepth.from_config (StochasticDepth.init p).get_config =
      .ok (StochasticDepth.init p) ∧
    baseLayerConfig ⊆ (StochasticDepth.init p).get_config := by
  refine ⟨rfl, rfl, ?_⟩
  intro kv hkv
  exact List.mem_append_left _ hkv

/-- C6: with survival probability 1, a training-mode call returns
`shortcut + residual` for every uniform draw in `[0, 1)`, and an
inference-mode call returns the same value. -/
theorem survival_one_adds_residual (s r : Tensor) (g : RNG)
    (hu : g.draws g.pos < 1) :
    (StochasticDepth.init 1).call (.list [s, r]) true g =
      .ok (tensorAdd s r, ⟨g.pos + 1, g.draws⟩) ∧
    (StochasticDepth.init 1).call (.list [s, r]) false g =
      .ok (tensorAdd s r, ⟨g.pos + 1, g.draws⟩) := by
  constructor
  · simp [StochasticDepth.call, StochasticDepth.init, random_binomial, RNG.next,
      bernoulliGate, hu, scalarMul_one]
  · simp [StochasticDepth.call, StochasticDepth.init, random_binomial, RNG.next,
      scalarMul_one]

/-- C6 witness: the survival-probability-1 equations instantiated at concrete
tensors and the all-zero generator. -/
theorem survival_one_adds_residual_witness :
    gen0.draws gen0.pos < 1 ∧
    (StochasticDepth.init 1).call (.list [tensorA, tensorB]) true gen0 =
      .ok (tensorAdd tensorA tensorB, ⟨gen0.pos + 1, gen0.draws⟩) :=
  ⟨by decide, (survival_one_adds_residual tensorA tensorB gen0 (by decide)).1⟩

/-- C7: with survival probability 0, both a training-mode and an
inference-mode call return the shortcut unchanged, for every uniform draw
in `[0, 1)`. -/
theorem survival_zero_keeps_shortcut (s r : Tensor) (g : RNG)
    (hu : 0 ≤ g.draws g.pos) (hlen : s.data.length = r.data.length) :
    (StochasticDepth.init 0).call (.list [s, r]) true g =
      .ok (s, ⟨g.pos + 1, g.draws⟩) ∧
    (StochasticDepth.init 0).call (.list [s, r]) false g =
      .ok (s, ⟨g.pos + 1, g.draws⟩) := by
  have hb : bernoulliGate 0 (g.draws g.pos) = 0 := by
    rw [bernoulliGate, if_neg (not_lt.mpr hu)]
  constructor
  · simp [StochasticDepth.call, StochasticDepth.init, random_binomial, RNG.next,
      hb, tensorAdd_scalarMul_zero s r hlen]
  · simp [StochasticDepth.call, StochasticDepth.init, random_binomial, RNG.next,
      tensorAdd_scalarMul_zero s r hlen]

/-- C7 witness: the survival-probability-0 equations instantiated at concrete
tensors and the all-zero generator. -/
theorem survival_zero_keeps_shortcut_witness :
    0 ≤ gen0.draws gen0.pos ∧ tensorA.data.length = tensorB.data.length ∧
    (StochasticDepth.init 0).call (.list [tensorA, tensorB]) true gen0 =
      .ok (tensorA, ⟨gen0.pos + 1, gen0.draws⟩) :=
  ⟨by decide, rfl,
    (survival_zero_keeps_shortcut tensorA tensorB gen0 (by decide) rfl).1⟩

/-- C8: `compute_output_shape` does not return the first input shape: its
body references the undefined name `x`, so evaluating it on the shape list
`[[3, 3, 1], [3, 3, 1]]` raises `NameError` instead of returning
`[3, 3, 1]`. -/
theorem compute_output_shape_name_error :
    (StochasticDepth.init (1/2)).compute_output_shape [[3, 3, 1], [3, 3, 1]] =
      .error (.nameError "name x is not defined") := rfl

/-- C9: construction stores any survival probability unchanged — no range
validation, so values outside `[0, 1]` are stored too — the typechecked
constructor accepts every float, and the default is `0.5`. -/
theorem init_stores_probability_unvalidated (p : ℚ) :
    (StochasticDepth.init p).survival_probability = p ∧
    StochasticDepth.initChecked (.float p) = .ok (StochasticDepth.init p) ∧
    (StochasticDepth.init : StochasticDepth).survival_probability = 1/2 :=
  ⟨rfl, rfl, rfl⟩

/-- C10 counterexample: constructing with the Python integer `1` does not
raise a type error: the typechecked constructor accepts it and stores the
value `1`. -/
theorem initChecked_accepts_int :
    StochasticDepth.initChecked (.int 1) = .ok (StochasticDepth.init 1) := by
  simp [StochasticDepth.initChecked, StochasticDepth.init]

/-- C10 amended: the typechecked constructor accepts `int` as well as `float`
arguments (PEP 484 numeric tower), storing the numeric value, and raises a
type error for non-numeric arguments such as strings. -/
theorem initChecked_numeric_tower (n : Int) (s : String) :
    StochasticDepth.initChecked (.int n) =
      .ok (StochasticDepth.init (n : ℚ)) ∧
    StochasticDepth.initChecked (.str s) =
      .error (.typeError "type of argument survival_probability must be float") :=
  ⟨rfl, rfl⟩
